import Mathlib

/-!
Shallow embedding of the terminal-presentation core of `src/tui/tui.go`
(color model, theme resolution, palette derivation, event key naming,
hex color parsing), together with theorems checking the specification's
claims against it.

Conventions:
* Go `int32`/`int` values are modelled as `Int` (every value computed by the
  embedded operations stays far inside the `int32` range, so no wrap-around
  is ever observable and no explicit `% 2^32` is needed).
* The `Attr` bitmask is modelled as `Nat` (only non-negative bit patterns
  are ever used by the code).
* Fallible operations return `Option` (`HexToColor` indexes its argument
  without a bounds check, so inputs shorter than 7 bytes are outside its
  domain and yield `none` in the model).
-/

namespace tui

/-- Go: `type Color int32`. Values used by the embedded code stay well within
the `int32` range, so plain `Int` is a faithful model. -/
abbrev Color := Int

def colUndefined : Color := -2

def colDefault : Color := -1

def colBlack : Color := 0

def colRed : Color := 1

def colGreen : Color := 2

def colYellow : Color := 3

def colBlue : Color := 4

def colMagenta : Color := 5

def colCyan : Color := 6

def colWhite : Color := 7

def Color.IsDefault (c : Color) : Bool := c == colDefault

/-- Modelled from the spec: the `Attr` type (a bitmask of text attributes with
an "undefined" zero sentinel distinct from the "regular/no attribute" value)
is declared in another file of the `tui` package that is not among the given
sources. -/
abbrev Attr := Nat

/-- Modelled from the spec: the zero "not set" sentinel of the attribute bitmask. -/
def AttrUndefined : Attr := 0

/-- Modelled from the spec: the explicit "no attribute" value, distinct from
`AttrUndefined`. -/
def AttrRegular : Attr := 256

/-- Modelled from the spec: single attribute bits of the bitmask. -/
def Bold : Attr := 1

def Dim : Attr := 2

def Italic : Attr := 4

def Underline : Attr := 8

def Blink : Attr := 16

def Blink2 : Attr := 32

def Reverse : Attr := 64

def StrikeThrough : Attr := 128

/-- Modelled from the spec: `Attr.Merge` (declared outside the given sources)
is the union of the two attribute bitmasks; merging `AttrUndefined` (zero) is
a no-op. -/
def Attr.Merge (a b : Attr) : Attr := a ||| b

structure ColorAttr where
  Color : tui.Color
  Attr : tui.Attr
  BackgroundColor : tui.Color
deriving DecidableEq, Repr

def NewColorAttr : ColorAttr :=
  { Color := colUndefined, Attr := AttrUndefined, BackgroundColor := colUndefined }

structure ColorPair where
  fg : Color
  bg : Color
  attr : Attr
deriving DecidableEq, Repr

def NewColorPair (fg bg : Color) (attr : Attr) : ColorPair := ⟨fg, bg, attr⟩

def ColorPair.HasBg (p : ColorPair) : Bool :=
  (decide (p.attr &&& Reverse = 0) && decide (p.bg ≠ colDefault)) ||
  (decide (0 < p.attr &&& Reverse) && decide (p.fg ≠ colDefault))

def ColorPair.merge (p other : ColorPair) (except : Color) : ColorPair :=
  let dup := { p with attr := Attr.Merge p.attr other.attr }
  let dup := if other.fg ≠ except then { dup with fg := other.fg } else dup
  if other.bg ≠ except then { dup with bg := other.bg } else dup

def ColorPair.WithAttr (p : ColorPair) (attr : Attr) : ColorPair :=
  { p with attr := Attr.Merge p.attr attr }

def ColorPair.MergeAttr (p other : ColorPair) : ColorPair :=
  p.WithAttr other.attr

def ColorPair.Merge (p other : ColorPair) : ColorPair :=
  p.merge other colUndefined

def ColorPair.MergeNonDefault (p other : ColorPair) : ColorPair :=
  p.merge other colDefault

/-- Claim C1: `ColorPair.Merge a b` copies `a`, replacing `fg` (resp. `bg`)
by `b`'s field unless that field is the `colUndefined` sentinel, and merges
the attribute bitmasks, where an undefined (zero) overlay attribute is a
no-op — so every field of `a` whose counterpart in `b` is undefined is left
unchanged. -/
theorem Merge_replaces_unless_undefined (a b : ColorPair) :
    a.Merge b = ⟨if b.fg = colUndefined then a.fg else b.fg,
                 if b.bg = colUndefined then a.bg else b.bg,
                 Attr.Merge a.attr b.attr⟩ ∧
    Attr.Merge a.attr AttrUndefined = a.attr := by
  constructor
  · unfold ColorPair.Merge ColorPair.merge
    by_cases hf : b.fg = colUndefined <;> by_cases hg : b.bg = colUndefined <;>
      simp [hf, hg]
  · simp [Attr.Merge, AttrUndefined]

/-- Claim C2: `ColorPair.MergeNonDefault a b` leaves `a`'s `fg` (resp. `bg`)
unchanged exactly when `b`'s field equals the `colDefault` sentinel — which
is a different sentinel from `colUndefined` — and any other value of `b`'s
field replaces `a`'s field. -/
theorem MergeNonDefault_keeps_default_fields (a b : ColorPair) :
    (a.MergeNonDefault b).fg = (if b.fg = colDefault then a.fg else b.fg) ∧
    (a.MergeNonDefault b).bg = (if b.bg = colDefault then a.bg else b.bg) ∧
    colDefault ≠ colUndefined := by
  refine ⟨?_, ?_, by decide⟩ <;>
  · unfold ColorPair.MergeNonDefault ColorPair.merge
    by_cases hf : b.fg = colDefault <;> by_cases hg : b.bg = colDefault <;>
      simp [hf, hg]

/-- Claim C10: in `MergeNonDefault` only the `colDefault` sentinel is
protected, so an overlay field equal to `colUndefined` does overwrite the
base field and injects `colUndefined` into the result — independently for
`fg` and for `bg`, whatever the other field of the overlay holds. -/
theorem MergeNonDefault_lets_undefined_through (a b : ColorPair) :
    (b.fg = colUndefined → (a.MergeNonDefault b).fg = colUndefined) ∧
    (b.bg = colUndefined → (a.MergeNonDefault b).bg = colUndefined) := by
  constructor
  · intro hf
    unfold ColorPair.MergeNonDefault ColorPair.merge
    by_cases hg : b.bg = colDefault <;>
      simp [hf, hg, show colUndefined ≠ colDefault by decide]
  · intro hg
    unfold ColorPair.MergeNonDefault ColorPair.merge
    by_cases hf : b.fg = colDefault <;>
      simp [hf, hg, show colUndefined ≠ colDefault by decide]

theorem MergeNonDefault_lets_undefined_through_witness :
    ((⟨colRed, colGreen, Bold⟩ : ColorPair).MergeNonDefault
        ⟨colUndefined, colBlue, AttrUndefined⟩).fg = colUndefined ∧
    ((⟨colRed, colGreen, Bold⟩ : ColorPair).MergeNonDefault
        ⟨colCyan, colUndefined, AttrUndefined⟩).bg = colUndefined :=
  ⟨(MergeNonDefault_lets_undefined_through ⟨colRed, colGreen, Bold⟩
      ⟨colUndefined, colBlue, AttrUndefined⟩).1 rfl,
   (MergeNonDefault_lets_undefined_through ⟨colRed, colGreen, Bold⟩
      ⟨colCyan, colUndefined, AttrUndefined⟩).2 rfl⟩

/-- Claim C6: `HasBg` holds iff the `Reverse` bit is clear and `bg` is not the
default sentinel, or the `Reverse` bit is set and `fg` is not the default
sentinel — under `Reverse` the test switches to the opposite color field. -/
theorem HasBg_iff (p : ColorPair) :
    p.HasBg = true ↔
      ((p.attr &&& Reverse = 0 ∧ p.bg ≠ colDefault) ∨
       (p.attr &&& Reverse ≠ 0 ∧ p.fg ≠ colDefault)) := by
  unfold ColorPair.HasBg
  by_cases h : p.attr &&& Reverse = 0
  · simp [h]
  · simp [h, Nat.pos_of_ne_zero h]

structure ColorTheme where
  Colored : Bool
  Input : ColorAttr
  Disabled : ColorAttr
  Fg : ColorAttr
  Bg : ColorAttr
  SelectedFg : ColorAttr
  SelectedBg : ColorAttr
  SelectedMatch : ColorAttr
  PreviewFg : ColorAttr
  PreviewBg : ColorAttr
  DarkBg : ColorAttr
  Gutter : ColorAttr
  Prompt : ColorAttr
  Match : ColorAttr
  Current : ColorAttr
  CurrentMatch : ColorAttr
  Spinner : ColorAttr
  Info : ColorAttr
  Cursor : ColorAttr
  Marker : ColorAttr
  Header : ColorAttr
  Separator : ColorAttr
  Scrollbar : ColorAttr
  Border : ColorAttr
  PreviewBorder : ColorAttr
  PreviewScrollbar : ColorAttr
  BorderLabel : ColorAttr
  PreviewLabel : ColorAttr
deriving DecidableEq, Repr

def EmptyTheme : ColorTheme :=
  { Colored := true
    Input := ⟨colUndefined, AttrUndefined, colUndefined⟩
    Fg := ⟨colUndefined, AttrUndefined, colUndefined⟩
    Bg := ⟨colUndefined, AttrUndefined, colUndefined⟩
    SelectedFg := ⟨colUndefined, AttrUndefined, colUndefined⟩
    SelectedBg := ⟨colUndefined, AttrUndefined, colUndefined⟩
    SelectedMatch := ⟨colUndefined, AttrUndefined, colUndefined⟩
    DarkBg := ⟨colUndefined, AttrUndefined, colUndefined⟩
    Prompt := ⟨colUndefined, AttrUndefined, colUndefined⟩
    Match := ⟨colUndefined, AttrUndefined, colUndefined⟩
    Current := ⟨colUndefined, AttrUndefined, colUndefined⟩
    CurrentMatch := ⟨colUndefined, AttrUndefined, colUndefined⟩
    Spinner := ⟨colUndefined, AttrUndefined, colUndefined⟩
    Info := ⟨colUndefined, AttrUndefined, colUndefined⟩
    Cursor := ⟨colUndefined, AttrUndefined, colUndefined⟩
    Marker := ⟨colUndefined, AttrUndefined, colUndefined⟩
    Header := ⟨colUndefined, AttrUndefined, colUndefined⟩
    Border := ⟨colUndefined, AttrUndefined, colUndefined⟩
    BorderLabel := ⟨colUndefined, AttrUndefined, colUndefined⟩
    Disabled := ⟨colUndefined, AttrUndefined, colUndefined⟩
    PreviewFg := ⟨colUndefined, AttrUndefined, colUndefined⟩
    PreviewBg := ⟨colUndefined, AttrUndefined, colUndefined⟩
    Gutter := ⟨colUndefined, AttrUndefined, colUndefined⟩
    PreviewBorder := ⟨colUndefined, AttrUndefined, colUndefined⟩
    PreviewScrollbar := ⟨colUndefined, AttrUndefined, colUndefined⟩
    PreviewLabel := ⟨colUndefined, AttrUndefined, colUndefined⟩
    Separator := ⟨colUndefined, AttrUndefined, colUndefined⟩
    Scrollbar := ⟨colUndefined, AttrUndefined, colUndefined⟩ }

def Default16 : ColorTheme :=
  { Colored := true
    Input := ⟨colDefault, AttrUndefined, colUndefined⟩
    Fg := ⟨colDefault, AttrUndefined, colUndefined⟩
    Bg := ⟨colDefault, AttrUndefined, colUndefined⟩
    SelectedFg := ⟨colUndefined, AttrUndefined, colUndefined⟩
    SelectedBg := ⟨colUndefined, AttrUndefined, colUndefined⟩
    SelectedMatch := ⟨colUndefined, AttrUndefined, colUndefined⟩
    DarkBg := ⟨colBlack, AttrUndefined, colUndefined⟩
    Prompt := ⟨colBlue, AttrUndefined, colUndefined⟩
    Match := ⟨colGreen, AttrUndefined, colUndefined⟩
    Current := ⟨colYellow, AttrUndefined, colUndefined⟩
    CurrentMatch := ⟨colGreen, AttrUndefined, colUndefined⟩
    Spinner := ⟨colGreen, AttrUndefined, colUndefined⟩
    Info := ⟨colWhite, AttrUndefined, colUndefined⟩
    Cursor := ⟨colRed, AttrUndefined, colUndefined⟩
    Marker := ⟨colMagenta, AttrUndefined, colUndefined⟩
    Header := ⟨colCyan, AttrUndefined, colUndefined⟩
    Border := ⟨colBlack, AttrUndefined, colUndefined⟩
    BorderLabel := ⟨colWhite, AttrUndefined, colUndefined⟩
    Disabled := ⟨colUndefined, AttrUndefined, colUndefined⟩
    PreviewFg := ⟨colUndefined, AttrUndefined, colUndefined⟩
    PreviewBg := ⟨colUndefined, AttrUndefined, colUndefined⟩
    Gutter := ⟨colUndefined, AttrUndefined, colUndefined⟩
    PreviewBorder := ⟨colUndefined, AttrUndefined, colUndefined⟩
    PreviewScrollbar := ⟨colUndefined, AttrUndefined, colUndefined⟩
    PreviewLabel := ⟨colUndefined, AttrUndefined, colUndefined⟩
    Separator := ⟨colUndefined, AttrUndefined, colUndefined⟩
    Scrollbar := ⟨colUndefined, AttrUndefined, colUndefined⟩ }

/-- The local closure `o` of `initTheme`: copy `a`, overriding each field by
`b`'s field when that field is not the undefined sentinel. -/
def o (a b : ColorAttr) : ColorAttr :=
  let c := a
  let c := if b.Color ≠ colUndefined then { c with Color := b.Color } else c
  let c := if b.Attr ≠ AttrUndefined then { c with Attr := b.Attr } else c
  if b.BackgroundColor ≠ colUndefined then { c with BackgroundColor := b.BackgroundColor } else c

/-- `initTheme` from the source, as a pure function on the `theme` argument
(the Go code mutates `theme` in place and finally calls `initPalette`, which
is modelled separately as `initPalette`). Field assignments are performed in
the source's order, so compound slots read the already-resolved primitives. -/
def initTheme (theme baseTheme : ColorTheme) (forceBlack : Bool) : ColorTheme :=
  let t0 : ColorTheme := if forceBlack then
      { theme with Bg := ⟨colBlack, AttrUndefined, colUndefined⟩ } else theme
  let Input := o baseTheme.Input t0.Input
  let Fg := o baseTheme.Fg t0.Fg
  let Bg := o baseTheme.Bg t0.Bg
  let DarkBg := o baseTheme.DarkBg t0.DarkBg
  let Prompt := o baseTheme.Prompt t0.Prompt
  let Match := o baseTheme.Match t0.Match
  let Current := o baseTheme.Current t0.Current
  let CurrentMatch := o baseTheme.CurrentMatch t0.CurrentMatch
  let Spinner := o baseTheme.Spinner t0.Spinner
  let Info := o baseTheme.Info t0.Info
  let Cursor := o baseTheme.Cursor t0.Cursor
  let Marker := o baseTheme.Marker t0.Marker
  let Header := o baseTheme.Header t0.Header
  let Border := o baseTheme.Border t0.Border
  let BorderLabel := o baseTheme.BorderLabel t0.BorderLabel
  let SelectedFg := o Fg t0.SelectedFg
  let SelectedBg := o Bg t0.SelectedBg
  let SelectedMatch := o Match t0.SelectedMatch
  let Disabled := o Input t0.Disabled
  let Gutter := o DarkBg t0.Gutter
  let PreviewFg := o Fg t0.PreviewFg
  let PreviewBg := o Bg t0.PreviewBg
  let PreviewLabel := o BorderLabel t0.PreviewLabel
  let PreviewBorder := o Border t0.PreviewBorder
  let Separator := o Border t0.Separator
  let Scrollbar := o Border t0.Scrollbar
  let PreviewScrollbar := o PreviewBorder t0.PreviewScrollbar
  { Colored := t0.Colored
    Input := Input
    Disabled := Disabled
    Fg := Fg
    Bg := Bg
    SelectedFg := SelectedFg
    SelectedBg := SelectedBg
    SelectedMatch := SelectedMatch
    PreviewFg := PreviewFg
    PreviewBg := PreviewBg
    DarkBg := DarkBg
    Gutter := Gutter
    Prompt := Prompt
    Match := Match
    Current := Current
    CurrentMatch := CurrentMatch
    Spinner := Spinner
    Info := Info
    Cursor := Cursor
    Marker := Marker
    Header := Header
    Separator := Separator
    Scrollbar := Scrollbar
    Border := Border
    PreviewBorder := PreviewBorder
    PreviewScrollbar := PreviewScrollbar
    BorderLabel := BorderLabel
    PreviewLabel := PreviewLabel }

/-- The local closure `pair` of `initPalette`: derive one `ColorPair` from a
foreground slot and a background slot. -/
def pair (fg bg : ColorAttr) : ColorPair :=
  let bg := if fg.Color = colDefault ∧ 0 < fg.Attr &&& Reverse then
      { bg with Color := colDefault } else bg
  let bg := if fg.BackgroundColor ≠ colDefault ∧ fg.BackgroundColor ≠ colUndefined then
      { bg with Color := fg.BackgroundColor } else bg
  ⟨fg.Color, bg.Color, fg.Attr⟩

/-- The set of package-level `Col*` globals written by `initPalette`,
gathered into one record. -/
structure Palette where
  ColPrompt : ColorPair
  ColNormal : ColorPair
  ColInput : ColorPair
  ColDisabled : ColorPair
  ColMatch : ColorPair
  ColCursor : ColorPair
  ColCursorEmpty : ColorPair
  ColMarker : ColorPair
  ColSelected : ColorPair
  ColSelectedMatch : ColorPair
  ColCurrent : ColorPair
  ColCurrentMatch : ColorPair
  ColCurrentCursor : ColorPair
  ColCurrentCursorEmpty : ColorPair
  ColCurrentMarker : ColorPair
  ColCurrentSelectedEmpty : ColorPair
  ColSpinner : ColorPair
  ColInfo : ColorPair
  ColHeader : ColorPair
  ColSeparator : ColorPair
  ColScrollbar : ColorPair
  ColBorder : ColorPair
  ColPreview : ColorPair
  ColPreviewBorder : ColorPair
  ColBorderLabel : ColorPair
  ColPreviewLabel : ColorPair
  ColPreviewScrollbar : ColorPair
  ColPreviewSpinner : ColorPair
deriving DecidableEq, Repr

def initPalette (theme : ColorTheme) : Palette :=
  let blank := { theme.Fg with Attr := AttrRegular }
  { ColPrompt := pair theme.Prompt theme.Bg
    ColNormal := pair theme.Fg theme.Bg
    ColSelected := pair theme.SelectedFg theme.SelectedBg
    ColInput := pair theme.Input theme.Bg
    ColDisabled := pair theme.Disabled theme.Bg
    ColMatch := pair theme.Match theme.Bg
    ColSelectedMatch := pair theme.SelectedMatch theme.SelectedBg
    ColCursor := pair theme.Cursor theme.Gutter
    ColCursorEmpty := pair blank theme.Gutter
    ColMarker := if theme.SelectedBg.Color ≠ theme.Bg.Color then
        pair theme.Marker theme.SelectedBg else pair theme.Marker theme.Gutter
    ColCurrent := pair theme.Current theme.DarkBg
    ColCurrentMatch := pair theme.CurrentMatch theme.DarkBg
    ColCurrentCursor := pair theme.Cursor theme.DarkBg
    ColCurrentCursorEmpty := pair blank theme.DarkBg
    ColCurrentMarker := pair theme.Marker theme.DarkBg
    ColCurrentSelectedEmpty := pair blank theme.DarkBg
    ColSpinner := pair theme.Spinner theme.Bg
    ColInfo := pair theme.Info theme.Bg
    ColHeader := pair theme.Header theme.Bg
    ColSeparator := pair theme.Separator theme.Bg
    ColScrollbar := pair theme.Scrollbar theme.Bg
    ColBorder := pair theme.Border theme.Bg
    ColBorderLabel := pair theme.BorderLabel theme.Bg
    ColPreviewLabel := pair theme.PreviewLabel theme.PreviewBg
    ColPreview := pair theme.PreviewFg theme.PreviewBg
    ColPreviewBorder := pair theme.PreviewBorder theme.PreviewBg
    ColPreviewScrollbar := pair theme.PreviewScrollbar theme.PreviewBg
    ColPreviewSpinner := pair theme.Spinner theme.PreviewBg }

theorem o_undef (a : ColorAttr) :
    o a ⟨colUndefined, AttrUndefined, colUndefined⟩ = a := by
  simp [o]

theorem o_Color (a b : ColorAttr) :
    (o a b).Color = if b.Color = colUndefined then a.Color else b.Color := by
  unfold o
  by_cases h1 : b.Color = colUndefined <;> by_cases h2 : b.Attr = AttrUndefined <;>
    by_cases h3 : b.BackgroundColor = colUndefined <;> simp [h1, h2, h3]

/-- Claim C3: when the overlay sets only the `Fg` slot, the compound
`SelectedFg` slot of the resolved theme equals the freshly resolved `Fg`
slot, and that resolved `Fg` carries the overlay's `Fg` color whenever the
overlay actually sets one — compound slots are resolved strictly after the
primitives they fall back to. -/
theorem selectedFg_tracks_resolved_fg (fa : ColorAttr) (base : ColorTheme) (fb : Bool) :
    (initTheme { EmptyTheme with Fg := fa } base fb).SelectedFg =
      (initTheme { EmptyTheme with Fg := fa } base fb).Fg ∧
    (fa.Color ≠ colUndefined →
      (initTheme { EmptyTheme with Fg := fa } base fb).Fg.Color = fa.Color) := by
  constructor
  · cases fb <;> exact rfl
  · intro h
    cases fb <;> simp [initTheme, EmptyTheme, o_Color, h]

theorem selectedFg_tracks_resolved_fg_witness :
    (initTheme { EmptyTheme with Fg := ⟨colRed, AttrUndefined, colUndefined⟩ }
        Default16 false).SelectedFg =
      (initTheme { EmptyTheme with Fg := ⟨colRed, AttrUndefined, colUndefined⟩ }
        Default16 false).Fg ∧
    (initTheme { EmptyTheme with Fg := ⟨colRed, AttrUndefined, colUndefined⟩ }
        Default16 false).Fg.Color = colRed :=
  ⟨(selectedFg_tracks_resolved_fg ⟨colRed, AttrUndefined, colUndefined⟩ Default16 false).1,
   (selectedFg_tracks_resolved_fg ⟨colRed, AttrUndefined, colUndefined⟩ Default16 false).2
     (by decide)⟩

/-- Claim C4 counterexample: `forceBlack` does affect a slot other than `Bg`:
with an empty overlay over `Default16`, the resolved `SelectedBg` slot (which
falls back to the already-resolved `Bg`) differs between `forceBlack = true`
and `forceBlack = false`. -/
theorem forceBlack_affects_selectedBg :
    (initTheme EmptyTheme Default16 true).SelectedBg ≠
      (initTheme EmptyTheme Default16 false).SelectedBg := by decide

/-- Claim C4 (amended): with base theme `Default16` and `forceBlack = true`
the resolved `Bg` slot color is the black palette index for every overlay,
and the `forceBlack` flag leaves every slot unchanged except `Bg` and the
compound slots that fall back to it (`SelectedBg`, `PreviewBg`). -/
theorem forceBlack_bg_black_other_slots (overlay : ColorTheme) :
    (initTheme overlay Default16 true).Bg.Color = colBlack ∧
    ((initTheme overlay Default16 true).Colored =
        (initTheme overlay Default16 false).Colored ∧
     (initTheme overlay Default16 true).Input =
        (initTheme overlay Default16 false).Input ∧
     (initTheme overlay Default16 true).Disabled =
        (initTheme overlay Default16 false).Disabled ∧
     (initTheme overlay Default16 true).Fg =
        (initTheme overlay Default16 false).Fg ∧
     (initTheme overlay Default16 true).SelectedFg =
        (initTheme overlay Default16 false).SelectedFg ∧
     (initTheme overlay Default16 true).SelectedMatch =
        (initTheme overlay Default16 false).SelectedMatch ∧
     (initTheme overlay Default16 true).PreviewFg =
        (initTheme overlay Default16 false).PreviewFg ∧
     (initTheme overlay Default16 true).DarkBg =
        (initTheme overlay Default16 false).DarkBg ∧
     (initTheme overlay Default16 true).Gutter =
        (initTheme overlay Default16 false).Gutter ∧
     (initTheme overlay Default16 true).Prompt =
        (initTheme overlay Default16 false).Prompt ∧
     (initTheme overlay Default16 true).Match =
        (initTheme overlay Default16 false).Match ∧
     (initTheme overlay Default16 true).Current =
        (initTheme overlay Default16 false).Current ∧
     (initTheme overlay Default16 true).CurrentMatch =
        (initTheme overlay Default16 false).CurrentMatch ∧
     (initTheme overlay Default16 true).Spinner =
        (initTheme overlay Default16 false).Spinner ∧
     (initTheme overlay Default16 true).Info =
        (initTheme overlay Default16 false).Info ∧
     (initTheme overlay Default16 true).Cursor =
        (initTheme overlay Default16 false).Cursor ∧
     (initTheme overlay Default16 true).Marker =
        (initTheme overlay Default16 false).Marker ∧
     (initTheme overlay Default16 true).Header =
        (initTheme overlay Default16 false).Header ∧
     (initTheme overlay Default16 true).Separator =
        (initTheme overlay Default16 false).Separator ∧
     (initTheme overlay Default16 true).Scrollbar =
        (initTheme overlay Default16 false).Scrollbar ∧
     (initTheme overlay Default16 true).Border =
        (initTheme overlay Default16 false).Border ∧
     (initTheme overlay Default16 true).PreviewBorder =
        (initTheme overlay Default16 false).PreviewBorder ∧
     (initTheme overlay Default16 true).PreviewScrollbar =
        (initTheme overlay Default16 false).PreviewScrollbar ∧
     (initTheme overlay Default16 true).BorderLabel =
        (initTheme overlay Default16 false).BorderLabel ∧
     (initTheme overlay Default16 true).PreviewLabel =
        (initTheme overlay Default16 false).PreviewLabel) :=
  ⟨rfl, rfl, rfl, rfl, rfl, rfl, rfl, rfl, rfl, rfl, rfl, rfl, rfl, rfl, rfl,
   rfl, rfl, rfl, rfl, rfl, rfl, rfl, rfl, rfl, rfl, rfl⟩

/-- Claim C5 counterexample: a foreground slot with default color, the
`Reverse` bit and a real `BackgroundColor` produces a pair whose background
is the `BackgroundColor`, not the default sentinel the claim demands. -/
theorem reverse_default_bg_overridden :
    ((⟨colDefault, Reverse, colRed⟩ : ColorAttr).Color = colDefault ∧
     0 < (⟨colDefault, Reverse, colRed⟩ : ColorAttr).Attr &&& Reverse) ∧
    (pair ⟨colDefault, Reverse, colRed⟩ ⟨colBlue, AttrUndefined, colUndefined⟩).bg
      ≠ colDefault := by decide

/-- Claim C5 (amended): if the foreground slot's color is the default
sentinel and its attribute bitmask includes `Reverse`, the derived pair's
background color is forced to the default sentinel — provided the
foreground's `BackgroundColor` is not a real color (i.e. it is `colDefault`
or `colUndefined`), since a real `BackgroundColor` overrides the background
afterwards. -/
theorem reverse_default_forces_bg_default (fg bg : ColorAttr)
    (h1 : fg.Color = colDefault) (h2 : 0 < fg.Attr &&& Reverse)
    (h3 : fg.BackgroundColor = colDefault ∨ fg.BackgroundColor = colUndefined) :
    (pair fg bg).bg = colDefault := by
  unfold pair
  rcases h3 with h | h <;> simp [h1, h2, h]

theorem reverse_default_forces_bg_default_witness :
    (pair ⟨colDefault, Reverse, colUndefined⟩ ⟨colBlue, AttrUndefined, colUndefined⟩).bg
      = colDefault :=
  reverse_default_forces_bg_default _ _ rfl (by decide) (Or.inr rfl)

/-- Go: `type EventType int`. The constants below carry the `iota` values of
the source's `const` block. -/
abbrev EventType := Int

def Rune : EventType := 0

def CtrlA : EventType := 1

def CtrlB : EventType := 2

def CtrlC : EventType := 3

def CtrlD : EventType := 4

def CtrlE : EventType := 5

def CtrlF : EventType := 6

def CtrlG : EventType := 7

def CtrlH : EventType := 8

def Tab : EventType := 9

def CtrlJ : EventType := 10

def CtrlK : EventType := 11

def CtrlL : EventType := 12

def CtrlM : EventType := 13

def CtrlN : EventType := 14

def CtrlO : EventType := 15

def CtrlP : EventType := 16

def CtrlQ : EventType := 17

def CtrlR : EventType := 18

def CtrlS : EventType := 19

def CtrlT : EventType := 20

def CtrlU : EventType := 21

def CtrlV : EventType := 22

def CtrlW : EventType := 23

def CtrlX : EventType := 24

def CtrlY : EventType := 25

def CtrlZ : EventType := 26

def Esc : EventType := 27

def CtrlSpace : EventType := 28

def CtrlDelete : EventType := 29

def CtrlBackSlash : EventType := 30

def CtrlRightBracket : EventType := 31

def CtrlCaret : EventType := 32

def CtrlSlash : EventType := 33

def ShiftTab : EventType := 34

def Backspace : EventType := 35

def Delete : EventType := 36

def PageUp : EventType := 37

def PageDown : EventType := 38

def Up : EventType := 39

def Down : EventType := 40

def Left : EventType := 41

def Right : EventType := 42

def Home : EventType := 43

def End : EventType := 44

def Insert : EventType := 45

def ShiftUp : EventType := 46

def ShiftDown : EventType := 47

def ShiftLeft : EventType := 48

def ShiftRight : EventType := 49

def ShiftDelete : EventType := 50

def F1 : EventType := 51

def F2 : EventType := 52

def F3 : EventType := 53

def F4 : EventType := 54

def F5 : EventType := 55

def F6 : EventType := 56

def F7 : EventType := 57

def F8 : EventType := 58

def F9 : EventType := 59

def F10 : EventType := 60

def F11 : EventType := 61

def F12 : EventType := 62

def AltBackspace : EventType := 63

def AltUp : EventType := 64

def AltDown : EventType := 65

def AltLeft : EventType := 66

def AltRight : EventType := 67

def AltShiftUp : EventType := 68

def AltShiftDown : EventType := 69

def AltShiftLeft : EventType := 70

def AltShiftRight : EventType := 71

def Alt : EventType := 72

def CtrlAlt : EventType := 73

def Invalid : EventType := 74

def Fatal : EventType := 75

def Mouse : EventType := 76

def DoubleClick : EventType := 77

def LeftClick : EventType := 78

def RightClick : EventType := 79

def SLeftClick : EventType := 80

def SRightClick : EventType := 81

def ScrollUp : EventType := 82

def ScrollDown : EventType := 83

def SScrollUp : EventType := 84

def SScrollDown : EventType := 85

def PreviewScrollUp : EventType := 86

def PreviewScrollDown : EventType := 87

def Resize : EventType := 88

def Change : EventType := 89

def BackwardEOF : EventType := 90

def Start : EventType := 91

def Load : EventType := 92

def Focus : EventType := 93

def One : EventType := 94

def Zero : EventType := 95

def Result : EventType := 96

def Jump : EventType := 97

def JumpCancel : EventType := 98

def ClickHeader : EventType := 99

structure MouseEvent where
  Y : Int
  X : Int
  S : Int
  Left : Bool
  Down : Bool
  Double : Bool
  Mod : Bool
deriving DecidableEq, Repr

structure Event where
  type : EventType
  Char : Char
  MouseEvent : Option tui.MouseEvent
deriving DecidableEq, Repr

def AsEvent (t : EventType) : Event := ⟨t, Char.ofNat 0, none⟩

def Event.Comparable (e : Event) : Event := ⟨e.type, e.Char, none⟩

def Key (r : Char) : Event := ⟨Rune, r, none⟩

def AltKey (r : Char) : Event := ⟨Alt, r, none⟩

def CtrlAltKey (r : Char) : Event := ⟨CtrlAlt, r, none⟩

/-- Modelled from the spec: the stringer-generated `EventType.String` method
(its generated source file is not among the given sources) returns the
symbolic name of each enumerated constant. -/
def eventTypeString (t : EventType) : String :=
  match t with
  | 0 => "Rune"
  | 1 => "CtrlA"
  | 2 => "CtrlB"
  | 3 => "CtrlC"
  | 4 => "CtrlD"
  | 5 => "CtrlE"
  | 6 => "CtrlF"
  | 7 => "CtrlG"
  | 8 => "CtrlH"
  | 9 => "Tab"
  | 10 => "CtrlJ"
  | 11 => "CtrlK"
  | 12 => "CtrlL"
  | 13 => "CtrlM"
  | 14 => "CtrlN"
  | 15 => "CtrlO"
  | 16 => "CtrlP"
  | 17 => "CtrlQ"
  | 18 => "CtrlR"
  | 19 => "CtrlS"
  | 20 => "CtrlT"
  | 21 => "CtrlU"
  | 22 => "CtrlV"
  | 23 => "CtrlW"
  | 24 => "CtrlX"
  | 25 => "CtrlY"
  | 26 => "CtrlZ"
  | 27 => "Esc"
  | 28 => "CtrlSpace"
  | 29 => "CtrlDelete"
  | 30 => "CtrlBackSlash"
  | 31 => "CtrlRightBracket"
  | 32 => "CtrlCaret"
  | 33 => "CtrlSlash"
  | 34 => "ShiftTab"
  | 35 => "Backspace"
  | 36 => "Delete"
  | 37 => "PageUp"
  | 38 => "PageDown"
  | 39 => "Up"
  | 40 => "Down"
  | 41 => "Left"
  | 42 => "Right"
  | 43 => "Home"
  | 44 => "End"
  | 45 => "Insert"
  | 46 => "ShiftUp"
  | 47 => "ShiftDown"
  | 48 => "ShiftLeft"
  | 49 => "ShiftRight"
  | 50 => "ShiftDelete"
  | 51 => "F1"
  | 52 => "F2"
  | 53 => "F3"
  | 54 => "F4"
  | 55 => "F5"
  | 56 => "F6"
  | 57 => "F7"
  | 58 => "F8"
  | 59 => "F9"
  | 60 => "F10"
  | 61 => "F11"
  | 62 => "F12"
  | 63 => "AltBackspace"
  | 64 => "AltUp"
  | 65 => "AltDown"
  | 66 => "AltLeft"
  | 67 => "AltRight"
  | 68 => "AltShiftUp"
  | 69 => "AltShiftDown"
  | 70 => "AltShiftLeft"
  | 71 => "AltShiftRight"
  | 72 => "Alt"
  | 73 => "CtrlAlt"
  | 74 => "Invalid"
  | 75 => "Fatal"
  | 76 => "Mouse"
  | 77 => "DoubleClick"
  | 78 => "LeftClick"
  | 79 => "RightClick"
  | 80 => "SLeftClick"
  | 81 => "SRightClick"
  | 82 => "ScrollUp"
  | 83 => "ScrollDown"
  | 84 => "SScrollUp"
  | 85 => "SScrollDown"
  | 86 => "PreviewScrollUp"
  | 87 => "PreviewScrollDown"
  | 88 => "Resize"
  | 89 => "Change"
  | 90 => "BackwardEOF"
  | 91 => "Start"
  | 92 => "Load"
  | 93 => "Focus"
  | 94 => "One"
  | 95 => "Zero"
  | 96 => "Result"
  | 97 => "Jump"
  | 98 => "JumpCancel"
  | 99 => "ClickHeader"
  | n => "EventType(" ++ toString n ++ ")"

/-- Modelled from the spec: `util.ToKebabCase` (the `util` package is not
among the given sources) — kebab-case transform of a CamelCase symbolic
name: a dash is inserted before each uppercase letter, everything is
lowercased, and a leading dash is stripped. -/
def ToKebabCase (s : String) : String :=
  let t := s.toList.foldr
    (fun c acc => (if c.isUpper then ['-', c.toLower] else [c]) ++ acc) []
  String.mk (match t with
    | '-' :: rest => rest
    | l => l)

def Event.KeyName (e : Event) : String :=
  if Invalid ≤ e.type then ""
  else if e.type = Rune then String.singleton e.Char
  else if e.type = Alt then "alt-" ++ String.singleton e.Char
  else if e.type = CtrlAlt then "ctrl-alt-" ++ String.singleton e.Char
  else if e.type = CtrlBackSlash then "ctrl-\\"
  else if e.type = CtrlRightBracket then "ctrl-]"
  else if e.type = CtrlCaret then "ctrl-^"
  else if e.type = CtrlSlash then "ctrl-/"
  else ToKebabCase (eventTypeString e.type)

/-- Claim C7 counterexample: `KeyName` on an event kind at or above `Invalid`
(here `Resize`) returns the empty string, not the kebab-case transform of its
symbolic name. -/
theorem keyName_resize_empty :
    (AsEvent Resize).KeyName = "" ∧
    ToKebabCase (eventTypeString Resize) = "resize" ∧
    ("" : String) ≠ "resize" := by
  refine ⟨rfl, by decide, by decide⟩

/-- Claim C7 (amended): `KeyName` returns the literal character for `Rune`,
"alt-"/"ctrl-alt-" plus the literal character for `Alt`/`CtrlAlt`, the four
fixed strings for the hard-to-name control chords, the kebab-case transform
of the kind's symbolic name for every other kind strictly below `Invalid`,
and the empty string for every kind at or above `Invalid` (mouse and
application signal kinds). -/
theorem keyName_contract :
    (∀ c : Char, (Key c).KeyName = String.singleton c) ∧
    (∀ c : Char, (AltKey c).KeyName = "alt-" ++ String.singleton c) ∧
    (∀ c : Char, (CtrlAltKey c).KeyName = "ctrl-alt-" ++ String.singleton c) ∧
    (AsEvent CtrlBackSlash).KeyName = "ctrl-\\" ∧
    (AsEvent CtrlRightBracket).KeyName = "ctrl-]" ∧
    (AsEvent CtrlCaret).KeyName = "ctrl-^" ∧
    (AsEvent CtrlSlash).KeyName = "ctrl-/" ∧
    (∀ e : Event, Invalid ≤ e.type → e.KeyName = "") ∧
    (∀ e : Event, 0 ≤ e.type → e.type < Invalid →
      e.type ≠ Rune → e.type ≠ Alt → e.type ≠ CtrlAlt →
      e.type ≠ CtrlBackSlash → e.type ≠ CtrlRightBracket →
      e.type ≠ CtrlCaret → e.type ≠ CtrlSlash →
      e.KeyName = ToKebabCase (eventTypeString e.type)) := by
  refine ⟨fun c => rfl, fun c => rfl, fun c => rfl, rfl, rfl, rfl, rfl, ?_, ?_⟩
  · intro e h
    unfold Event.KeyName
    rw [if_pos h]
  · intro e h0 h74 hr ha hca hbs hrb hcc hcs
    unfold Event.KeyName
    rw [if_neg (not_le.mpr h74), if_neg hr, if_neg ha, if_neg hca,
        if_neg hbs, if_neg hrb, if_neg hcc, if_neg hcs]

theorem keyName_contract_witness :
    (AsEvent Resize).KeyName = "" ∧
    (AsEvent Tab).KeyName = ToKebabCase (eventTypeString Tab) :=
  ⟨keyName_contract.2.2.2.2.2.2.2.1 (AsEvent Resize) (by decide),
   keyName_contract.2.2.2.2.2.2.2.2 (AsEvent Tab) (by decide) (by decide)
     (by decide) (by decide) (by decide) (by decide) (by decide) (by decide)
     (by decide)⟩

/-- Hexadecimal value of one character, as accepted by `strconv.ParseInt`
with base 16 (`0-9`, `a-f`, `A-F`); `none` for any other character. -/
def hexDigitVal (c : Char) : Option Nat :=
  if '0' ≤ c ∧ c ≤ '9' then some (c.toNat - '0'.toNat)
  else if 'a' ≤ c ∧ c ≤ 'f' then some (c.toNat - 'a'.toNat + 10)
  else if 'A' ≤ c ∧ c ≤ 'F' then some (c.toNat - 'A'.toNat + 10)
  else none

def isHexDigit (c : Char) : Bool := (hexDigitVal c).isSome

/-- Base-16 digit run of `strconv.ParseInt`: `none` on an empty run or on any
non-hex character, otherwise the accumulated value. -/
def parseDigitsHex (cs : List Char) : Option Nat :=
  match cs with
  | [] => none
  | _ :: _ => cs.foldl
      (fun acc c =>
        match acc, hexDigitVal c with
        | some n, some d => some (16 * n + d)
        | _, _ => none)
      (some 0)

/-- Model of Go `strconv.ParseInt(s, 16, 0)` with the error ignored, as
`HexToColor` uses it: an optional sign, then a non-empty run of hex digits;
any syntax error yields 0. (`HexToColor` only ever passes two characters, so
the 64-bit range check of `ParseInt` can never fire and is omitted.) -/
def parseIntHex (cs : List Char) : Int :=
  match cs with
  | [] => 0
  | c :: rest =>
    if c = '+' then
      match parseDigitsHex rest with
      | some n => (n : Int)
      | none => 0
    else if c = '-' then
      match parseDigitsHex rest with
      | some n => -(n : Int)
      | none => 0
    else
      match parseDigitsHex (c :: rest) with
      | some n => (n : Int)
      | none => 0

/-- `HexToColor` from the source. The Go function slices `rrggbb[1:3]`,
`[3:5]`, `[5:7]` without a bounds check, so inputs shorter than 7 bytes are
outside its domain (a Go slice panic); the model returns `none` there. The
Go code indexes bytes; the model uses characters, which coincides on the
ASCII inputs the function is meant for. `r<<16` etc. are written as
multiplications by powers of two (equal in Go for these never-overflowing
values). -/
def HexToColor (rrggbb : String) : Option Color :=
  let cs := rrggbb.toList
  if 7 ≤ cs.length then
    let r := parseIntHex ((cs.drop 1).take 2)
    let g := parseIntHex ((cs.drop 3).take 2)
    let b := parseIntHex ((cs.drop 5).take 2)
    some (2 ^ 24 + r * 2 ^ 16 + g * 2 ^ 8 + b)
  else none

/-- `hexPairFails a b` holds exactly when `strconv.ParseInt` errors on the
two-character component `[a, b]` (after optional sign stripping the digit
run is empty or contains a non-hex character), i.e. when `parseIntHex`
falls back to 0 because of a parse failure. -/
def hexPairFails (a b : Char) : Bool :=
  if a = '+' then (parseDigitsHex [b]).isNone
  else if a = '-' then (parseDigitsHex [b]).isNone
  else (parseDigitsHex [a, b]).isNone

theorem parseIntHex_pair (a b : Char) (da db : Nat)
    (ha : hexDigitVal a = some da) (hb : hexDigitVal b = some db) :
    parseIntHex [a, b] = ((16 * da + db : Nat) : Int) := by
  have hap : a ≠ '+' := by
    intro h
    rw [h] at ha
    simp [hexDigitVal] at ha
  have ham : a ≠ '-' := by
    intro h
    rw [h] at ha
    simp [hexDigitVal] at ha
  simp [parseIntHex, parseDigitsHex, hap, ham, ha, hb]

theorem parseIntHex_fails (a b : Char) (h : hexPairFails a b = true) :
    parseIntHex [a, b] = 0 := by
  unfold hexPairFails at h
  by_cases hap : a = '+'
  · subst hap
    rw [if_pos rfl, Option.isNone_iff_eq_none] at h
    simp [parseIntHex, h]
  · by_cases ham : a = '-'
    · subst ham
      rw [if_neg (by decide), if_pos rfl, Option.isNone_iff_eq_none] at h
      simp [parseIntHex, h]
    · rw [if_neg hap, if_neg ham, Option.isNone_iff_eq_none] at h
      simp [parseIntHex, hap, ham, h]

/-- Claim C8: `HexToColor` maps `"#000000"` to `Color (1<<24)` and
`"#ffffff"` to `Color (1<<24 + 0xffffff)`, and in general maps every
well-formed 7-character `"#RRGGBB"` string of hex digits to the packed
truecolor value `1<<24 + R<<16 + G<<8 + B`. -/
theorem hexToColor_wellformed :
    HexToColor "#000000" = some (2 ^ 24) ∧
    HexToColor "#ffffff" = some (2 ^ 24 + 0xffffff) ∧
    ∀ (c1 c2 c3 c4 c5 c6 : Char) (d1 d2 d3 d4 d5 d6 : Nat),
      hexDigitVal c1 = some d1 → hexDigitVal c2 = some d2 →
      hexDigitVal c3 = some d3 → hexDigitVal c4 = some d4 →
      hexDigitVal c5 = some d5 → hexDigitVal c6 = some d6 →
      HexToColor (String.mk ['#', c1, c2, c3, c4, c5, c6]) =
        some (2 ^ 24 + ((16 * d1 + d2 : Nat) : Int) * 2 ^ 16 +
              ((16 * d3 + d4 : Nat) : Int) * 2 ^ 8 + ((16 * d5 + d6 : Nat) : Int)) := by
  refine ⟨by decide, by decide, ?_⟩
  intro c1 c2 c3 c4 c5 c6 d1 d2 d3 d4 d5 d6 h1 h2 h3 h4 h5 h6
  have hrfl : HexToColor (String.mk ['#', c1, c2, c3, c4, c5, c6]) =
      some (2 ^ 24 + parseIntHex [c1, c2] * 2 ^ 16 +
            parseIntHex [c3, c4] * 2 ^ 8 + parseIntHex [c5, c6]) := rfl
  rw [hrfl, parseIntHex_pair c1 c2 d1 d2 h1 h2, parseIntHex_pair c3 c4 d3 d4 h3 h4,
      parseIntHex_pair c5 c6 d5 d6 h5 h6]

theorem hexToColor_wellformed_witness :
    hexDigitVal 'f' = some 15 ∧
    HexToColor (String.mk ['#', 'f', 'f', 'f', 'f', 'f', 'f']) =
      some (2 ^ 24 + ((16 * 15 + 15 : Nat) : Int) * 2 ^ 16 +
            ((16 * 15 + 15 : Nat) : Int) * 2 ^ 8 + ((16 * 15 + 15 : Nat) : Int)) :=
  ⟨by decide,
   hexToColor_wellformed.2.2 'f' 'f' 'f' 'f' 'f' 'f' 15 15 15 15 15 15
     (by decide) (by decide) (by decide) (by decide) (by decide) (by decide)⟩

/-- Claim C9 counterexample: the malformed input `"#ffxxxx"` does not yield
the packed black `Color (1<<24)` — the red component parses to 255 and is
kept, only the failing components fall back to zero. -/
theorem hexToColor_partial_malformed :
    HexToColor "#ffxxxx" = some (2 ^ 24 + 255 * 2 ^ 16) ∧
    HexToColor "#ffxxxx" ≠ some (2 ^ 24) := by
  exact ⟨by decide, by decide⟩

/-- Claim C9 (amended): `HexToColor` signals no failure on malformed
7-character inputs; each two-character component that fails to parse
silently contributes zero, so every input all of whose three components
fail to parse yields exactly the packed truecolor black `Color (1<<24)`.
A partially malformed input keeps the components that do parse, and inputs
shorter than 7 bytes are outside the function's domain. -/
theorem hexToColor_all_malformed_black (c1 c2 c3 c4 c5 c6 : Char)
    (h12 : hexPairFails c1 c2 = true) (h34 : hexPairFails c3 c4 = true)
    (h56 : hexPairFails c5 c6 = true) :
    HexToColor (String.mk ['#', c1, c2, c3, c4, c5, c6]) = some (2 ^ 24) := by
  have hrfl : HexToColor (String.mk ['#', c1, c2, c3, c4, c5, c6]) =
      some (2 ^ 24 + parseIntHex [c1, c2] * 2 ^ 16 +
            parseIntHex [c3, c4] * 2 ^ 8 + parseIntHex [c5, c6]) := rfl
  rw [hrfl, parseIntHex_fails c1 c2 h12, parseIntHex_fails c3 c4 h34,
      parseIntHex_fails c5 c6 h56]
  norm_num

theorem hexToColor_all_malformed_black_witness :
    HexToColor (String.mk ['#', 'x', '1', 'x', '1', 'x', '1']) = some (2 ^ 24) ∧
    HexToColor (String.mk ['#', 'z', 'z', 'z', 'z', 'z', 'z']) = some (2 ^ 24) :=
  ⟨hexToColor_all_malformed_black 'x' '1' 'x' '1' 'x' '1'
     (by decide) (by decide) (by decide),
   hexToColor_all_malformed_black 'z' 'z' 'z' 'z' 'z' 'z'
     (by decide) (by decide) (by decide)⟩

end tui
